import Mathlib

/-!
Shallow embedding of the schema-validated execution wrappers of the
foundation-core library.

The embedded source files are:
* src/Action/ZodSchemaValidatedAction.ts (class ZodSchemaValidatedAction)
* src/Service/ZodSchemaValidatedService.ts (class ZodSchemaValidatedService)
* src/Helper/OptionalFieldStripperHelper.ts (class OptionalFieldStripperHelper)
* src/Tool/ActionTool.ts and src/Tool/ServiceTool.ts
* src/Type/Response.ts (TypeResponse / TypeMessage)

The schema engine (Zod) is an external dependency.  It is embedded
abstractly as a `Schema` record exposing exactly the contract the core
consumes: `safeParse : Value → ParseResult` (success with a normalized
value, or failure with an ordered list of issues carrying a message and a
path), plus the object `shape` used by OptionalFieldStripperHelper, given
as the list of declared field names each tagged with whether the field
schema is a ZodOptional or ZodNullable instance.
-/

/-- A JavaScript runtime value, as far as the wrappers observe it:
null, undefined, strings, numbers, booleans and plain objects. -/
inductive Value where
  | vnull
  | vundef
  | vstr (s : String)
  | vnum (n : Int)
  | vbool (b : Bool)
  | vobj (fields : List (String × Value))

/-- A JavaScript plain object: an ordered list of key/value properties.
Objects originating from JS literals have pairwise distinct keys; the
lookup/update operations below use first-occurrence semantics, which
agrees with JS property access on such objects. -/
abbrev Record := List (String × Value)

/-- One Zod validation issue: a human-readable message and the path of
the failing field (each path element already rendered as a string, as
`path.join` would). -/
structure Issue where
  message : String
  path : List String
deriving DecidableEq, Repr

/-- The result of `schema.safeParse(value)`: success carrying the
normalized/coerced data, or failure carrying the ordered issue list. -/
inductive ParseResult where
  | ok (data : Value)
  | fail (issues : List Issue)

/-- An abstract Zod schema, embedded through the contract the core
consumes: `safeParse`, plus the object shape (declared field names, each
tagged true when the field schema is ZodOptional or ZodNullable). -/
structure Schema where
  safeParse : Value → ParseResult
  shape : List (String × Bool)

/-- src/Type/Response.ts: TypeMessage, a `{code, text}` pair. -/
structure Message where
  code : String
  text : String
deriving DecidableEq, Repr

/-- src/Type/Response.ts: TypeResponse.  `messages?` and `data?` are
optional in TS; an absent `messages` is embedded as the empty list and an
absent `data` as `Value.vundef` (reading an absent JS property yields
undefined, which is also what the wrappers pass on to `safeParse`). -/
structure Response where
  success : Bool
  messages : List Message
  data : Value

/-- JS property read `r[k]`: the value at the first occurrence of key
`k`, or none when the key is absent. -/
def lookupField : Record → String → Option Value
  | [], _ => none
  | (k', v') :: rest, k => if k' = k then some v' else lookupField rest k

/-- JS property write `r[k] = v`: replaces the value at the first
occurrence of key `k`, or appends the property when the key is absent. -/
def setField : Record → String → Value → Record
  | [], k, v => [(k, v)]
  | (k', v') :: rest, k, v =>
      if k' = k then (k, v) :: rest else (k', v') :: setField rest k v

/-- The JS strict comparison `x === ''` on an optional property read:
true exactly when the property is present and holds the empty string. -/
def isEmptyStr : Option Value → Bool
  | some (Value.vstr s) => s == ""
  | _ => false

/-- The body of the forEach loop of stripEmptyStrings: when the field
schema at this shape entry is ZodOptional or ZodNullable and the cleaned
record holds the empty string at the entry's key, assign undefined at
that key. -/
def stripStep (cleanedData : Record) (kv : String × Bool) : Record :=
  if kv.2 && isEmptyStr (lookupField cleanedData kv.1) then
    setField cleanedData kv.1 Value.vundef
  else
    cleanedData

/-- src/Helper/OptionalFieldStripperHelper.ts, stripEmptyStrings: shallow
copy of `data`; for each entry of the schema shape whose field schema is
ZodOptional or ZodNullable, if the copy holds the empty string at that
key, the key is set to undefined.  The shallow copy `{...data}` is the
identity at the level of values, so the copy step is implicit here; the
heap-level embedding below makes it explicit. -/
def OptionalFieldStripperHelper.stripEmptyStrings (data : Record) (schema : Schema) : Record :=
  schema.shape.foldl stripStep data

/-- A heap of JS objects; a reference is an index into the list. -/
abbrev JsHeap := List Record

/-- The body of the forEach loop at the heap level: the loop reads and
mutates only the freshly allocated object at `newRef`. -/
def heapStripStep (newRef : Nat) (h : JsHeap) (kv : String × Bool) : JsHeap :=
  let cleanedData := h.getD newRef []
  if kv.2 && isEmptyStr (lookupField cleanedData kv.1) then
    h.set newRef (setField cleanedData kv.1 Value.vundef)
  else
    h

/-- Heap-level embedding of stripEmptyStrings, making the object
identities of the JS source explicit: `const cleanedData = {...data}`
allocates a fresh object holding a copy of the fields of the object at
`dataRef`; the forEach loop assigns only into that fresh object; the
function returns the heap and the reference to the fresh object. -/
def OptionalFieldStripperHelper.stripEmptyStringsHeap (heap : JsHeap) (dataRef : Nat) (schema : Schema) : JsHeap × Nat :=
  let data := heap.getD dataRef []
  let newRef := heap.length
  let heapAlloc := heap ++ [data]
  let heapFinal := schema.shape.foldl (heapStripStep newRef) heapAlloc
  (heapFinal, newRef)

/-- Modelled from the spec: the VALIDATION_ERROR member of EnumErrorCode
(src/Type/ErrorCode.ts is not among the provided sources; the spec fixes
validation error as the only code the core itself produces). -/
def EnumErrorCode.VALIDATION_ERROR : String := "VALIDATION_ERROR"

/-- The issue-to-message mapping both validation failure branches of
ZodSchemaValidatedAction.execute apply:
`{code: EnumErrorCode.VALIDATION_ERROR, text: `${error.message} (at ${error.path.join('.')})`}`. -/
def validationMessage (error : Issue) : Message :=
  { code := EnumErrorCode.VALIDATION_ERROR
    text := error.message ++ " (at " ++ String.intercalate "." error.path ++ ")" }

/-- src/Action/ZodSchemaValidatedAction.ts, execute, instrumented with a
flag recording whether the wrapped action was invoked.  The constructor
arguments (payloadSchema, objectSchema, action) are passed explicitly;
the wrapped action is a pure function from the parsed payload to its
TypeResponse (awaiting introduces no further behavior). -/
def ZodSchemaValidatedAction.executeWithCall (payloadSchema objectSchema : Schema)
    (action : Value → Response) (payload : Record) : Response × Bool :=
  match payloadSchema.safeParse
      (Value.vobj (OptionalFieldStripperHelper.stripEmptyStrings payload payloadSchema)) with
  | ParseResult.fail errors =>
      ({ success := false
         messages := errors.map validationMessage
         data := Value.vundef }, false)
  | ParseResult.ok parsedData =>
      let response := action parsedData
      match objectSchema.safeParse response.data with
      | ParseResult.fail errors =>
          ({ success := false
             messages := errors.map validationMessage
             data := Value.vundef }, true)
      | ParseResult.ok validatedData =>
          ({ response with data := validatedData }, true)

/-- src/Action/ZodSchemaValidatedAction.ts, execute: the response the
caller observes. -/
def ZodSchemaValidatedAction.execute (payloadSchema objectSchema : Schema)
    (action : Value → Response) (payload : Record) : Response :=
  (ZodSchemaValidatedAction.executeWithCall payloadSchema objectSchema action payload).1

/-- src/Service/ZodSchemaValidatedService.ts, execute, instrumented with
the argument the wrapped service was invoked with (none when it was not
invoked).  The wrapped service is a pure function from the parsed payload
to its bare result value. -/
def ZodSchemaValidatedService.executeWithCall (payloadSchema responseSchema : Schema)
    (service : Value → Value) (payload : Value) : ParseResult × Option Value :=
  match payloadSchema.safeParse payload with
  | ParseResult.fail errors => (ParseResult.fail errors, none)
  | ParseResult.ok parsedData =>
      let response := service parsedData
      (responseSchema.safeParse response, some parsedData)

/-- src/Service/ZodSchemaValidatedService.ts, execute: the validation
result the caller observes. -/
def ZodSchemaValidatedService.execute (payloadSchema responseSchema : Schema)
    (service : Value → Value) (payload : Value) : ParseResult :=
  (ZodSchemaValidatedService.executeWithCall payloadSchema responseSchema service payload).1

/-- src/Tool/ActionTool.ts: extends ZodSchemaValidatedAction with name,
description and parameters.  The superclass constructor arguments are
kept as fields. -/
structure ActionTool where
  name : String
  description : String
  parameters : Schema
  payloadSchema : Schema
  objectSchema : Schema
  action : Value → Response

/-- The ActionTool constructor: forwards (payloadSchema, responseSchema,
action) to the superclass and assigns name, description and
`parameters = payloadSchema`. -/
def ActionTool.make (name description : String) (payloadSchema responseSchema : Schema)
    (action : Value → Response) : ActionTool :=
  { name := name
    description := description
    parameters := payloadSchema
    payloadSchema := payloadSchema
    objectSchema := responseSchema
    action := action }

/-- ActionTool.execute is inherited unchanged from
ZodSchemaValidatedAction. -/
def ActionTool.execute (t : ActionTool) (payload : Record) : Response :=
  ZodSchemaValidatedAction.execute t.payloadSchema t.objectSchema t.action payload

/-- src/Tool/ServiceTool.ts: extends ZodSchemaValidatedService with name,
description and parameters. -/
structure ServiceTool where
  name : String
  description : String
  parameters : Schema
  payloadSchema : Schema
  responseSchema : Schema
  service : Value → Value

/-- The ServiceTool constructor: forwards (payloadSchema, responseSchema,
service) to the superclass and assigns name, description and
`parameters = payloadSchema`. -/
def ServiceTool.make (name description : String) (payloadSchema responseSchema : Schema)
    (service : Value → Value) : ServiceTool :=
  { name := name
    description := description
    parameters := payloadSchema
    payloadSchema := payloadSchema
    responseSchema := responseSchema
    service := service }

/-- ServiceTool.execute is inherited unchanged from
ZodSchemaValidatedService. -/
def ServiceTool.execute (t : ServiceTool) (payload : Value) : ParseResult :=
  ZodSchemaValidatedService.execute t.payloadSchema t.responseSchema t.service payload

/-- Whether an object shape declares key `k` with a ZodOptional or
ZodNullable field schema (first occurrence; false when the shape does
not declare `k`). -/
def optionalFlag : List (String × Bool) → String → Bool
  | [], _ => false
  | (k', b) :: rest, k => if k' = k then b else optionalFlag rest k

/-- The property keys of a value: the declared keys of an object, and
none for any other value. -/
def Value.objKeys : Value → List String
  | Value.vobj fields => fields.map Prod.fst
  | _ => []

/-- The field names a schema declares in its object shape. -/
def Schema.declaredKeys (s : Schema) : List String :=
  s.shape.map Prod.fst

/-- The closed/strip-mode part of the consumed schema-engine contract:
every value the schema accepts has only declared fields left in the
normalized result (Zod object schemas in their default strip mode
satisfy this). -/
def Schema.StripsUndeclared (s : Schema) : Prop :=
  ∀ v w, s.safeParse v = ParseResult.ok w → ∀ k, k ∈ w.objKeys → k ∈ s.declaredKeys

/-- The uniform-response invariant of the Action convention, relative to
an output schema: success holds exactly when data is present and valid
per that schema, and messages are non-empty exactly on failure. -/
def ResponseWellFormed (objectSchema : Schema) (r : Response) : Prop :=
  (r.success = true ↔ (r.data ≠ Value.vundef ∧ ∃ w, objectSchema.safeParse r.data = ParseResult.ok w)) ∧
  (r.messages ≠ [] ↔ r.success = false)

/-- Fixture: a schema accepting every value unchanged, with an empty
object shape. -/
def schemaAcceptAll : Schema :=
  { safeParse := fun v => ParseResult.ok v
    shape := [] }

/-- Fixture: a schema rejecting every value with a single issue at the
field path `name`. -/
def schemaRejectAll : Schema :=
  { safeParse := fun _ => ParseResult.fail [{ message := "Required", path := ["name"] }]
    shape := [] }

/-- Fixture: a schema rejecting every value with a single issue whose
path is empty (as a Zod top-level type mismatch produces). -/
def schemaRejectRoot : Schema :=
  { safeParse := fun _ => ParseResult.fail [{ message := "Required", path := [] }]
    shape := [] }

/-- Fixture: a schema accepting every value and normalizing it to the
object `{id: 1}`, declaring only the field `id`. -/
def schemaConstId : Schema :=
  { safeParse := fun _ => ParseResult.ok (Value.vobj [("id", Value.vnum 1)])
    shape := [("id", false)] }

/-- Fixture: the Zod object schema `{id: number}` in its default strip
mode: accepts objects carrying a numeric `id` property, keeping only
that property, and rejects everything else. -/
def schemaIdObject : Schema :=
  { safeParse := fun v =>
      match v with
      | Value.vobj fields =>
          match lookupField fields "id" with
          | some (Value.vnum n) => ParseResult.ok (Value.vobj [("id", Value.vnum n)])
          | _ => ParseResult.fail [{ message := "Expected number, received string", path := ["id"] }]
      | _ => ParseResult.fail [{ message := "Required", path := ["id"] }]
    shape := [("id", false)] }

/-- Fixture: a schema accepting every value unchanged whose object shape
declares `email` as optional and `name` as required. -/
def schemaNameEmail : Schema :=
  { safeParse := fun v => ParseResult.ok v
    shape := [("email", true), ("name", false)] }

/-- Fixture: a wrapped action that succeeds with data `{id: 1,
extraField: ...}` and a non-empty message list. -/
def actionExtraFields : Value → Response := fun _ =>
  { success := true
    messages := [{ code := "NOTE", text := "kept on success" }]
    data := Value.vobj [("id", Value.vnum 1), ("extraField", Value.vstr "this should be stripped")] }

/-- Fixture: a wrapped action in the uniform-response convention:
success with valid data `{id: 1}` and no messages. -/
def actionWellFormed : Value → Response := fun _ =>
  { success := true
    messages := []
    data := Value.vobj [("id", Value.vnum 1)] }

/-- Fixture: a wrapped action that succeeds but also carries a note
message alongside its data. -/
def actionNoteOnSuccess : Value → Response := fun _ =>
  { success := true
    messages := [{ code := "NOTE", text := "side note" }]
    data := Value.vnum 1 }

theorem lookupField_setField_self (r : Record) (k : String) (v : Value) :
    lookupField (setField r k v) k = some v := by
  induction r with
  | nil => simp [setField, lookupField]
  | cons hd tl ih =>
      obtain ⟨k', v'⟩ := hd
      by_cases hk : k' = k
      · subst hk
        simp [setField, lookupField]
      · simp [setField, hk, lookupField, ih]

theorem lookupField_setField_ne (r : Record) (k k' : String) (v : Value) (h : k' ≠ k) :
    lookupField (setField r k v) k' = lookupField r k' := by
  have hk : ¬ k = k' := fun hh => h hh.symm
  induction r with
  | nil =>
      simp only [setField, lookupField]
      rw [if_neg hk]
  | cons hd tl ih =>
      obtain ⟨a, b⟩ := hd
      by_cases ha : a = k
      · subst ha
        simp only [setField, if_pos rfl, lookupField]
        rw [if_neg hk, if_neg hk]
      · simp only [setField, if_neg ha, lookupField]
        by_cases ha' : a = k'
        · rw [if_pos ha', if_pos ha']
        · rw [if_neg ha', if_neg ha', ih]

theorem lookupField_stripStep_ne (r : Record) (kv : String × Bool) (k : String) (h : k ≠ kv.1) :
    lookupField (stripStep r kv) k = lookupField r k := by
  unfold stripStep
  by_cases hc : (kv.2 && isEmptyStr (lookupField r kv.1)) = true
  · rw [if_pos hc, lookupField_setField_ne _ _ _ _ h]
  · rw [if_neg hc]

theorem optionalFlag_not_mem (shape : List (String × Bool)) (k : String)
    (h : k ∉ shape.map Prod.fst) : optionalFlag shape k = false := by
  induction shape with
  | nil => rfl
  | cons hd tl ih =>
      obtain ⟨a, b⟩ := hd
      simp only [List.map_cons, List.mem_cons] at h
      push_neg at h
      have ha : ¬ a = k := fun hh => h.1 hh.symm
      simp only [optionalFlag, if_neg ha]
      exact ih h.2

theorem lookupField_foldl_not_mem (shape : List (String × Bool)) (r : Record) (k : String)
    (h : k ∉ shape.map Prod.fst) :
    lookupField (shape.foldl stripStep r) k = lookupField r k := by
  induction shape generalizing r with
  | nil => rfl
  | cons hd tl ih =>
      simp only [List.map_cons, List.mem_cons] at h
      push_neg at h
      simp only [List.foldl_cons]
      rw [ih _ h.2, lookupField_stripStep_ne _ _ _ h.1]
theorem strip_foldl_lookup (shape : List (String × Bool)) (r : Record) (k : String)
    (hnd : (shape.map Prod.fst).Nodup) :
    lookupField (shape.foldl stripStep r) k =
      if optionalFlag shape k && isEmptyStr (lookupField r k) then some Value.vundef
      else lookupField r k := by
  induction shape generalizing r with
  | nil => simp [optionalFlag]
  | cons hd tl ih =>
      obtain ⟨a, b⟩ := hd
      rw [List.map_cons, List.nodup_cons] at hnd
      rw [List.foldl_cons]
      by_cases hk : k = a
      · subst hk
        rw [lookupField_foldl_not_mem _ _ _ hnd.1]
        simp only [optionalFlag, if_pos rfl, if_true, stripStep]
        by_cases hc : (b && isEmptyStr (lookupField r k)) = true
        · rw [if_pos hc, if_pos hc, lookupField_setField_self]
        · rw [if_neg hc, if_neg hc]
      · have ha : ¬ a = k := fun hh => hk hh.symm
        rw [ih _ hnd.2, lookupField_stripStep_ne _ _ _ hk]
        simp only [optionalFlag, if_neg ha]

/-- C1: when the input-validation stage rejects the normalized payload,
the Action-convention execute returns success=false with one
VALIDATION_ERROR message per issue, and the wrapped action is never
invoked: for every wrapped action the instrumented run returns this
failure record with the invocation flag false. -/
theorem c1_input_failure_short_circuits (payloadSchema objectSchema : Schema)
    (action : Value → Response) (payload : Record) (errors : List Issue)
    (h : payloadSchema.safeParse
        (Value.vobj (OptionalFieldStripperHelper.stripEmptyStrings payload payloadSchema)) =
      ParseResult.fail errors) :
    ZodSchemaValidatedAction.executeWithCall payloadSchema objectSchema action payload =
      ({ success := false
         messages := errors.map validationMessage
         data := Value.vundef }, false) := by
  simp [ZodSchemaValidatedAction.executeWithCall, h]

/-- Witness for C1 at the fixture schema that rejects every payload. -/
theorem c1_witness :
    schemaRejectAll.safeParse
        (Value.vobj (OptionalFieldStripperHelper.stripEmptyStrings [] schemaRejectAll)) =
      ParseResult.fail [{ message := "Required", path := ["name"] }] ∧
    ZodSchemaValidatedAction.executeWithCall schemaRejectAll schemaAcceptAll
        (fun _ => { success := true, messages := [], data := Value.vnum 1 }) [] =
      ({ success := false
         messages := [{ code := "VALIDATION_ERROR", text := "Required (at name)" }]
         data := Value.vundef }, false) :=
  ⟨rfl, c1_input_failure_short_circuits schemaRejectAll schemaAcceptAll
    (fun _ => { success := true, messages := [], data := Value.vnum 1 }) [] _ rfl⟩

/-- C5: when the wrapped action's data is rejected by the output schema,
execute returns success=false with the VALIDATION_ERROR messages built
from the output-side issues only; the wrapped action's own success and
messages values are discarded (the returned record is exactly the
failure record below). -/
theorem c5_output_failure_discards_response (payloadSchema objectSchema : Schema)
    (action : Value → Response) (payload : Record) (parsedData : Value) (errors : List Issue)
    (h1 : payloadSchema.safeParse
        (Value.vobj (OptionalFieldStripperHelper.stripEmptyStrings payload payloadSchema)) =
      ParseResult.ok parsedData)
    (h2 : objectSchema.safeParse (action parsedData).data = ParseResult.fail errors) :
    ZodSchemaValidatedAction.execute payloadSchema objectSchema action payload =
      { success := false
        messages := errors.map validationMessage
        data := Value.vundef } := by
  simp [ZodSchemaValidatedAction.execute, ZodSchemaValidatedAction.executeWithCall, h1, h2]

/-- Witness for C5: the wrapped action reports success with its own
message, but its data fails the output schema; the result is the bare
validation failure. -/
theorem c5_witness :
    schemaAcceptAll.safeParse
        (Value.vobj (OptionalFieldStripperHelper.stripEmptyStrings [] schemaAcceptAll)) =
      ParseResult.ok (Value.vobj []) ∧
    schemaIdObject.safeParse
        ((fun _ => { success := true
                     messages := [{ code := "NOTE", text := "from the unit" }]
                     data := Value.vstr "oops" } : Value → Response) (Value.vobj [])).data =
      ParseResult.fail [{ message := "Required", path := ["id"] }] ∧
    ZodSchemaValidatedAction.execute schemaAcceptAll schemaIdObject
        (fun _ => { success := true
                    messages := [{ code := "NOTE", text := "from the unit" }]
                    data := Value.vstr "oops" }) [] =
      { success := false
        messages := [{ code := "VALIDATION_ERROR", text := "Required (at id)" }]
        data := Value.vundef } :=
  ⟨rfl, rfl, c5_output_failure_discards_response schemaAcceptAll schemaIdObject
    (fun _ => { success := true
                messages := [{ code := "NOTE", text := "from the unit" }]
                data := Value.vstr "oops" }) [] _ _ rfl rfl⟩

/-- C10: when the wrapped action reports failure with absent data, the
absent data is still validated against the output schema; when that
schema rejects an absent value, the caller receives success=false with
the VALIDATION_ERROR messages derived from that output validation, and
the wrapped action's own messages do not appear in the result. -/
theorem c10_failed_unit_absent_data (payloadSchema objectSchema : Schema)
    (action : Value → Response) (payload : Record) (parsedData : Value)
    (unitMessages : List Message) (errors : List Issue)
    (h1 : payloadSchema.safeParse
        (Value.vobj (OptionalFieldStripperHelper.stripEmptyStrings payload payloadSchema)) =
      ParseResult.ok parsedData)
    (h2 : action parsedData =
      { success := false, messages := unitMessages, data := Value.vundef })
    (h3 : objectSchema.safeParse Value.vundef = ParseResult.fail errors) :
    ZodSchemaValidatedAction.execute payloadSchema objectSchema action payload =
      { success := false
        messages := errors.map validationMessage
        data := Value.vundef } := by
  simp [ZodSchemaValidatedAction.execute, ZodSchemaValidatedAction.executeWithCall, h1, h2, h3]

/-- Witness for C10: the wrapped action fails with its own message and
no data; the output object schema rejects the absent value, and only the
output-validation message reaches the caller. -/
theorem c10_witness :
    schemaAcceptAll.safeParse
        (Value.vobj (OptionalFieldStripperHelper.stripEmptyStrings [] schemaAcceptAll)) =
      ParseResult.ok (Value.vobj []) ∧
    schemaIdObject.safeParse Value.vundef =
      ParseResult.fail [{ message := "Required", path := ["id"] }] ∧
    ZodSchemaValidatedAction.execute schemaAcceptAll schemaIdObject
        (fun _ => { success := false
                    messages := [{ code := "UPSTREAM_ERROR", text := "backend down" }]
                    data := Value.vundef }) [] =
      { success := false
        messages := [{ code := "VALIDATION_ERROR", text := "Required (at id)" }]
        data := Value.vundef } :=
  ⟨rfl, rfl, c10_failed_unit_absent_data schemaAcceptAll schemaIdObject
    (fun _ => { success := false
                messages := [{ code := "UPSTREAM_ERROR", text := "backend down" }]
                data := Value.vundef }) [] _ _ _ rfl rfl rfl⟩

/-- C9: both tool adapters delegate entirely: for every payload,
ActionTool.execute and ServiceTool.execute return exactly what the
underlying validated wrapper built from the same constructor arguments
returns, and each adapter's parameters field is the input schema it was
constructed with. -/
theorem c9_tools_delegate (name description : String) (payloadSchema responseSchema : Schema)
    (action : Value → Response) (service : Value → Value)
    (payload : Record) (servicePayload : Value) :
    ((ActionTool.make name description payloadSchema responseSchema action).execute payload =
      ZodSchemaValidatedAction.execute payloadSchema responseSchema action payload) ∧
    ((ActionTool.make name description payloadSchema responseSchema action).parameters =
      payloadSchema) ∧
    ((ServiceTool.make name description payloadSchema responseSchema service).execute servicePayload =
      ZodSchemaValidatedService.execute payloadSchema responseSchema service servicePayload) ∧
    ((ServiceTool.make name description payloadSchema responseSchema service).parameters =
      payloadSchema) :=
  ⟨rfl, rfl, rfl, rfl⟩

/-- C6: the Service-convention execute validates the raw payload (no
empty-string normalization): on input failure it returns the schema
engine's own failure result unmodified and never invokes the wrapped
service (argument slot none); on input success it invokes the service
with the schema's normalized payload and returns, unmodified, the result
of validating the service's bare return value against the output
schema. -/
theorem c6_service_pipeline (payloadSchema responseSchema : Schema)
    (service : Value → Value) (payload : Value) :
    (∀ errors, payloadSchema.safeParse payload = ParseResult.fail errors →
      ZodSchemaValidatedService.executeWithCall payloadSchema responseSchema service payload =
        (ParseResult.fail errors, none)) ∧
    (∀ parsedData, payloadSchema.safeParse payload = ParseResult.ok parsedData →
      ZodSchemaValidatedService.executeWithCall payloadSchema responseSchema service payload =
        (responseSchema.safeParse (service parsedData), some parsedData)) := by
  constructor
  · intro errors h
    simp [ZodSchemaValidatedService.executeWithCall, h]
  · intro parsedData h
    simp [ZodSchemaValidatedService.executeWithCall, h]

/-- Witness for C6, covering both branches: a rejecting input schema
short-circuits with the engine's failure, and an accepting one invokes
the service with the parsed payload. -/
theorem c6_witness :
    schemaRejectAll.safeParse (Value.vstr "x") =
      ParseResult.fail [{ message := "Required", path := ["name"] }] ∧
    ZodSchemaValidatedService.executeWithCall schemaRejectAll schemaAcceptAll
        (fun _ => Value.vnum 7) (Value.vstr "x") =
      (ParseResult.fail [{ message := "Required", path := ["name"] }], none) ∧
    schemaAcceptAll.safeParse (Value.vstr "x") = ParseResult.ok (Value.vstr "x") ∧
    ZodSchemaValidatedService.executeWithCall schemaAcceptAll schemaAcceptAll
        (fun _ => Value.vnum 7) (Value.vstr "x") =
      (ParseResult.ok (Value.vnum 7), some (Value.vstr "x")) :=
  ⟨rfl,
   (c6_service_pipeline schemaRejectAll schemaAcceptAll (fun _ => Value.vnum 7)
      (Value.vstr "x")).1 _ rfl,
   rfl,
   (c6_service_pipeline schemaAcceptAll schemaAcceptAll (fun _ => Value.vnum 7)
      (Value.vstr "x")).2 _ rfl⟩

theorem schemaIdObject_strips : schemaIdObject.StripsUndeclared := by
  intro v w h k hk
  simp only [schemaIdObject] at h
  split at h
  · split at h
    · rename_i n heq
      injection h with h'
      subst h'
      simp only [Value.objKeys, List.map_cons, List.map_nil, List.mem_singleton] at hk
      subst hk
      simp [Schema.declaredKeys, schemaIdObject]
    · exact ParseResult.noConfusion h
  · exact ParseResult.noConfusion h

theorem schemaIdObject_fail_ne_nil (v : Value) (errors : List Issue)
    (h : schemaIdObject.safeParse v = ParseResult.fail errors) : errors ≠ [] := by
  simp only [schemaIdObject] at h
  split at h
  · split at h
    · exact ParseResult.noConfusion h
    · injection h with h'
      subst h'
      simp
  · injection h with h'
    subst h'
    simp

theorem schemaIdObject_stable (v w : Value)
    (h : schemaIdObject.safeParse v = ParseResult.ok w) :
    schemaIdObject.safeParse w = ParseResult.ok w := by
  simp only [schemaIdObject] at h ⊢
  split at h
  · split at h
    · injection h with h'
      subst h'
      simp [lookupField]
    · exact ParseResult.noConfusion h
  · exact ParseResult.noConfusion h

theorem schemaIdObject_rejects_undef (w : Value) :
    ¬ schemaIdObject.safeParse Value.vundef = ParseResult.ok w := by
  intro h
  exact ParseResult.noConfusion h

/-- C2: on the success path — input-validation stage accepts, and the
output schema accepts the wrapped action's data — execute returns the
wrapped action's response record with only its data overwritten by the
validated value; when the output schema is in strip mode, every field of
that value is declared by the output schema. -/
theorem c2_success_overwrites_data (payloadSchema objectSchema : Schema)
    (action : Value → Response) (payload : Record) (parsedData validatedData : Value)
    (h1 : payloadSchema.safeParse
        (Value.vobj (OptionalFieldStripperHelper.stripEmptyStrings payload payloadSchema)) =
      ParseResult.ok parsedData)
    (h2 : objectSchema.safeParse (action parsedData).data = ParseResult.ok validatedData)
    (hstrip : objectSchema.StripsUndeclared) :
    ZodSchemaValidatedAction.execute payloadSchema objectSchema action payload =
      { action parsedData with data := validatedData } ∧
    ∀ k, k ∈ validatedData.objKeys → k ∈ objectSchema.declaredKeys := by
  constructor
  · simp [ZodSchemaValidatedAction.execute, ZodSchemaValidatedAction.executeWithCall, h1, h2]
  · exact hstrip _ _ h2

/-- Witness for C2: the wrapped action returns `{id: 1, extraField: ...}`
with a non-empty message list; the result keeps success and messages,
and its data is the stripped `{id: 1}` with every key declared. -/
theorem c2_witness :
    schemaAcceptAll.safeParse
        (Value.vobj (OptionalFieldStripperHelper.stripEmptyStrings
          [("name", Value.vstr "John Doe")] schemaAcceptAll)) =
      ParseResult.ok (Value.vobj [("name", Value.vstr "John Doe")]) ∧
    schemaIdObject.safeParse
        (actionExtraFields (Value.vobj [("name", Value.vstr "John Doe")])).data =
      ParseResult.ok (Value.vobj [("id", Value.vnum 1)]) ∧
    ZodSchemaValidatedAction.execute schemaAcceptAll schemaIdObject actionExtraFields
        [("name", Value.vstr "John Doe")] =
      { success := true
        messages := [{ code := "NOTE", text := "kept on success" }]
        data := Value.vobj [("id", Value.vnum 1)] } :=
  ⟨rfl, rfl,
   (c2_success_overwrites_data schemaAcceptAll schemaIdObject actionExtraFields
      [("name", Value.vstr "John Doe")] _ _ rfl rfl schemaIdObject_strips).1⟩

/-- C4 counterexample: a validation failure whose issue has an empty
path yields the text `Required (at )`, not the bare message `Required` as
the claim states for empty paths. -/
theorem c4_counterexample :
    (ZodSchemaValidatedAction.execute schemaRejectRoot schemaAcceptAll
        (fun _ => { success := true, messages := [], data := Value.vnum 1 }) []).messages =
      [{ code := EnumErrorCode.VALIDATION_ERROR, text := "Required (at )" }] ∧
    "Required (at )" ≠ "Required" :=
  ⟨rfl, by decide⟩

/-- C4 amended: every validation-failure message (input-side or
output-side) has text `<message> (at <path joined by .>)`; when the path
is empty that parenthetical is `(at )` — the bare message is never
returned. -/
theorem c4_amended_message_format (payloadSchema objectSchema : Schema)
    (action : Value → Response) (payload : Record) :
    (∀ errors, payloadSchema.safeParse
        (Value.vobj (OptionalFieldStripperHelper.stripEmptyStrings payload payloadSchema)) =
          ParseResult.fail errors →
      (ZodSchemaValidatedAction.execute payloadSchema objectSchema action payload).messages =
        errors.map (fun error =>
          { code := EnumErrorCode.VALIDATION_ERROR
            text := error.message ++ " (at " ++ String.intercalate "." error.path ++ ")" })) ∧
    (∀ parsedData errors, payloadSchema.safeParse
        (Value.vobj (OptionalFieldStripperHelper.stripEmptyStrings payload payloadSchema)) =
          ParseResult.ok parsedData →
      objectSchema.safeParse (action parsedData).data = ParseResult.fail errors →
      (ZodSchemaValidatedAction.execute payloadSchema objectSchema action payload).messages =
        errors.map (fun error =>
          { code := EnumErrorCode.VALIDATION_ERROR
            text := error.message ++ " (at " ++ String.intercalate "." error.path ++ ")" })) := by
  constructor
  · intro errors h
    simp [ZodSchemaValidatedAction.execute, ZodSchemaValidatedAction.executeWithCall, h]
    intro a ha
    rfl
  · intro parsedData errors h1 h2
    simp [ZodSchemaValidatedAction.execute, ZodSchemaValidatedAction.executeWithCall, h1, h2]
    intro a ha
    rfl

/-- Witness for C4 (amended), covering both stages: an input-side issue
with empty path, and an output-side issue with path `id`. -/
theorem c4_amended_witness :
    schemaRejectRoot.safeParse
        (Value.vobj (OptionalFieldStripperHelper.stripEmptyStrings [] schemaRejectRoot)) =
      ParseResult.fail [{ message := "Required", path := [] }] ∧
    (ZodSchemaValidatedAction.execute schemaRejectRoot schemaAcceptAll actionWellFormed []).messages =
      [{ code := "VALIDATION_ERROR", text := "Required (at )" }] ∧
    schemaAcceptAll.safeParse
        (Value.vobj (OptionalFieldStripperHelper.stripEmptyStrings [] schemaAcceptAll)) =
      ParseResult.ok (Value.vobj []) ∧
    schemaIdObject.safeParse
        ((fun _ => { success := true, messages := [], data := Value.vundef } : Value → Response)
          (Value.vobj [])).data =
      ParseResult.fail [{ message := "Required", path := ["id"] }] ∧
    (ZodSchemaValidatedAction.execute schemaAcceptAll schemaIdObject
        (fun _ => { success := true, messages := [], data := Value.vundef }) []).messages =
      [{ code := "VALIDATION_ERROR", text := "Required (at id)" }] :=
  ⟨rfl,
   (c4_amended_message_format schemaRejectRoot schemaAcceptAll actionWellFormed []).1 _ rfl,
   rfl, rfl,
   (c4_amended_message_format schemaAcceptAll schemaIdObject
      (fun _ => { success := true, messages := [], data := Value.vundef }) []).2 _ _ rfl rfl⟩

/-- C7: for every record and object schema (with its shape's keys
pairwise distinct, as any JS object shape has), reading any key of the
normalized record yields undefined when that key is declared optional or
nullable and the record held exactly the empty string there, and the
original value of the record at that key otherwise — fields the schema
does not declare included. -/
theorem c7_strip_normalizes_optional_empties (data : Record) (schema : Schema)
    (hnd : (schema.shape.map Prod.fst).Nodup) (k : String) :
    lookupField (OptionalFieldStripperHelper.stripEmptyStrings data schema) k =
      if optionalFlag schema.shape k && isEmptyStr (lookupField data k) then some Value.vundef
      else lookupField data k :=
  strip_foldl_lookup schema.shape data k hnd

/-- Witness for C7: an optional `email` holding the empty string becomes
undefined; the required `name` holding the empty string, a non-empty
optional field, and an undeclared field all pass through unchanged. -/
theorem c7_witness :
    ((schemaNameEmail.shape.map Prod.fst).Nodup) ∧
    lookupField (OptionalFieldStripperHelper.stripEmptyStrings
        [("name", Value.vstr ""), ("email", Value.vstr ""), ("extra", Value.vstr "")]
        schemaNameEmail) "email" = some Value.vundef ∧
    lookupField (OptionalFieldStripperHelper.stripEmptyStrings
        [("name", Value.vstr ""), ("email", Value.vstr ""), ("extra", Value.vstr "")]
        schemaNameEmail) "name" = some (Value.vstr "") ∧
    lookupField (OptionalFieldStripperHelper.stripEmptyStrings
        [("name", Value.vstr ""), ("email", Value.vstr ""), ("extra", Value.vstr "")]
        schemaNameEmail) "extra" = some (Value.vstr "") :=
  ⟨by decide,
   c7_strip_normalizes_optional_empties
     [("name", Value.vstr ""), ("email", Value.vstr ""), ("extra", Value.vstr "")]
     schemaNameEmail (by decide) "email",
   c7_strip_normalizes_optional_empties
     [("name", Value.vstr ""), ("email", Value.vstr ""), ("extra", Value.vstr "")]
     schemaNameEmail (by decide) "name",
   c7_strip_normalizes_optional_empties
     [("name", Value.vstr ""), ("email", Value.vstr ""), ("extra", Value.vstr "")]
     schemaNameEmail (by decide) "extra"⟩

theorem heapFold_getElem_ne (shape : List (String × Bool)) (newRef : Nat) (h0 : JsHeap)
    (r : Nat) (hne : newRef ≠ r) :
    (shape.foldl (heapStripStep newRef) h0)[r]? = h0[r]? := by
  induction shape generalizing h0 with
  | nil => rfl
  | cons hd tl ih =>
      rw [List.foldl_cons, ih]
      unfold heapStripStep
      dsimp only
      split
      · exact List.getElem?_set_ne hne
      · rfl

/-- C8: the field-normalization preprocessor does not mutate its input
record: in the heap-level embedding, the object the data reference
points at is unchanged after the call, whatever the returned copy looks
like. -/
theorem c8_no_mutation (heap : JsHeap) (dataRef : Nat) (schema : Schema)
    (h : dataRef < heap.length) :
    ((OptionalFieldStripperHelper.stripEmptyStringsHeap heap dataRef schema).1)[dataRef]? =
      heap[dataRef]? := by
  unfold OptionalFieldStripperHelper.stripEmptyStringsHeap
  dsimp only
  rw [heapFold_getElem_ne _ _ _ _ (Nat.ne_of_gt h)]
  exact List.getElem?_append_left h

/-- Witness for C8: a one-object heap whose record holds an empty
optional field; after the call the returned copy differs but the
original object is unchanged. -/
theorem c8_witness :
    0 < ([[("email", Value.vstr "")]] : JsHeap).length ∧
    ((OptionalFieldStripperHelper.stripEmptyStringsHeap
        [[("email", Value.vstr "")]] 0 schemaNameEmail).1)[0]? =
      ([[("email", Value.vstr "")]] : JsHeap)[0]? :=
  ⟨by decide, c8_no_mutation [[("email", Value.vstr "")]] 0 schemaNameEmail (by decide)⟩

/-- C3 counterexample: a wrapped action that succeeds with valid data
but a non-empty message list; the result has success=true and non-empty
messages, so the claimed invariant (messages non-empty iff success is
false) fails for this payload and wrapped unit. -/
theorem c3_counterexample :
    ¬ (((ZodSchemaValidatedAction.execute schemaAcceptAll schemaAcceptAll
          actionNoteOnSuccess []).messages ≠ []) ↔
       ((ZodSchemaValidatedAction.execute schemaAcceptAll schemaAcceptAll
          actionNoteOnSuccess []).success = false)) := by
  decide

theorem actionWellFormed_wf (v : Value) :
    ResponseWellFormed schemaIdObject (actionWellFormed v) := by
  constructor
  · refine iff_of_true rfl ⟨?_, ⟨Value.vobj [("id", Value.vnum 1)], ?_⟩⟩
    · intro h
      exact Value.noConfusion h
    · rfl
  · refine iff_of_false ?_ ?_
    · intro h
      exact h rfl
    · intro h
      exact Bool.noConfusion h

/-- C3 amended: the invariant holds for every payload provided the
engine and the wrapped unit honour their side of the convention: failing
parses carry at least one issue, the output schema is stable on its own
normalized values and rejects absent data, and the wrapped unit's own
responses satisfy the invariant.  Then success holds iff data is present
and valid per the output schema, messages are non-empty iff success is
false, and a failing call's messages come from exactly one stage. -/
theorem c3_amended_invariant (payloadSchema objectSchema : Schema)
    (action : Value → Response) (payload : Record)
    (hInIss : ∀ v errors, payloadSchema.safeParse v = ParseResult.fail errors → errors ≠ [])
    (hOutIss : ∀ v errors, objectSchema.safeParse v = ParseResult.fail errors → errors ≠ [])
    (hStable : ∀ v w, objectSchema.safeParse v = ParseResult.ok w →
      objectSchema.safeParse w = ParseResult.ok w)
    (hNoUndef : ∀ w, ¬ objectSchema.safeParse Value.vundef = ParseResult.ok w)
    (hAction : ∀ v, ResponseWellFormed objectSchema (action v)) :
    ResponseWellFormed objectSchema
      (ZodSchemaValidatedAction.execute payloadSchema objectSchema action payload) ∧
    ((ZodSchemaValidatedAction.execute payloadSchema objectSchema action payload).success = false →
      (∃ errors,
        payloadSchema.safeParse
            (Value.vobj (OptionalFieldStripperHelper.stripEmptyStrings payload payloadSchema)) =
          ParseResult.fail errors ∧
        (ZodSchemaValidatedAction.execute payloadSchema objectSchema action payload).messages =
          errors.map validationMessage) ∨
      (∃ parsedData errors,
        payloadSchema.safeParse
            (Value.vobj (OptionalFieldStripperHelper.stripEmptyStrings payload payloadSchema)) =
          ParseResult.ok parsedData ∧
        objectSchema.safeParse (action parsedData).data = ParseResult.fail errors ∧
        (ZodSchemaValidatedAction.execute payloadSchema objectSchema action payload).messages =
          errors.map validationMessage)) := by
  rcases hin : payloadSchema.safeParse
      (Value.vobj (OptionalFieldStripperHelper.stripEmptyStrings payload payloadSchema)) with
    parsedData | errors
  · rcases hout : objectSchema.safeParse (action parsedData).data with w | errors
    · have hexec : ZodSchemaValidatedAction.execute payloadSchema objectSchema action payload =
          { action parsedData with data := w } := by
        simp [ZodSchemaValidatedAction.execute, ZodSchemaValidatedAction.executeWithCall,
          hin, hout]
      have hresp := hAction parsedData
      have hdne : (action parsedData).data ≠ Value.vundef := by
        intro hdz
        rw [hdz] at hout
        exact hNoUndef _ hout
      have hsucc : (action parsedData).success = true :=
        hresp.1.mpr ⟨hdne, ⟨w, hout⟩⟩
      have hmsgs : (action parsedData).messages = [] := by
        by_contra hne
        have hfalse := hresp.2.mp hne
        rw [hsucc] at hfalse
        exact Bool.noConfusion hfalse
      have hwok : objectSchema.safeParse w = ParseResult.ok w := hStable _ _ hout
      have hwne : w ≠ Value.vundef := by
        intro hz
        rw [hz] at hwok
        exact hNoUndef _ hwok
      refine ⟨⟨?_, ?_⟩, ?_⟩
      · rw [hexec]
        exact iff_of_true hsucc ⟨hwne, ⟨w, hwok⟩⟩
      · rw [hexec]
        refine iff_of_false ?_ ?_
        · intro hne
          exact hne hmsgs
        · intro hfalse
          have hfalse' : (action parsedData).success = false := hfalse
          rw [hsucc] at hfalse'
          exact Bool.noConfusion hfalse'
      · intro hfalse
        rw [hexec] at hfalse
        have hfalse' : (action parsedData).success = false := hfalse
        rw [hsucc] at hfalse'
        exact Bool.noConfusion hfalse'
    · have hexec : ZodSchemaValidatedAction.execute payloadSchema objectSchema action payload =
          { success := false, messages := errors.map validationMessage, data := Value.vundef } := by
        simp [ZodSchemaValidatedAction.execute, ZodSchemaValidatedAction.executeWithCall,
          hin, hout]
      have herrne : errors ≠ [] := hOutIss _ _ hout
      refine ⟨⟨?_, ?_⟩, ?_⟩
      · rw [hexec]
        refine iff_of_false ?_ ?_
        · intro htrue
          exact Bool.noConfusion htrue
        · intro hcon
          exact hcon.1 rfl
      · rw [hexec]
        refine iff_of_true ?_ rfl
        intro hmapnil
        exact herrne (List.map_eq_nil_iff.mp hmapnil)
      · intro _
        right
        exact ⟨parsedData, errors, rfl, hout, by rw [hexec]⟩
  · have hexec : ZodSchemaValidatedAction.execute payloadSchema objectSchema action payload =
        { success := false, messages := errors.map validationMessage, data := Value.vundef } := by
      simp [ZodSchemaValidatedAction.execute, ZodSchemaValidatedAction.executeWithCall, hin]
    have herrne : errors ≠ [] := hInIss _ _ hin
    refine ⟨⟨?_, ?_⟩, ?_⟩
    · rw [hexec]
      refine iff_of_false ?_ ?_
      · intro htrue
        exact Bool.noConfusion htrue
      · intro hcon
        exact hcon.1 rfl
    · rw [hexec]
      refine iff_of_true ?_ rfl
      intro hmapnil
      exact herrne (List.map_eq_nil_iff.mp hmapnil)
    · intro _
      left
      exact ⟨errors, rfl, by rw [hexec]⟩

/-- Witness for C3 (amended): accept-all input schema, the `{id:
number}` output schema, and a well-formed wrapped action. -/
theorem c3_amended_witness :
    ResponseWellFormed schemaIdObject
      (ZodSchemaValidatedAction.execute schemaAcceptAll schemaIdObject actionWellFormed []) :=
  (c3_amended_invariant schemaAcceptAll schemaIdObject actionWellFormed []
    (fun _ _ h => ParseResult.noConfusion h)
    schemaIdObject_fail_ne_nil
    schemaIdObject_stable
    schemaIdObject_rejects_undef
    actionWellFormed_wf).1
